import Mathlib

/-!
Shallow embedding of `src/uesm.h` (universal events and shared memory
functions), POSIX branch. Each C function is translated into a Lean
function; OS calls the function issues are recorded in an explicit trace
of `OSAction` values, and the outcomes of fallible OS calls (sem_open,
shm_open, ftruncate, mmap, sem_timedwait) are supplied as oracle
arguments, since the OS is an external collaborator. Null pointers are
modelled as `none`, valid handles / descriptors / addresses as `some _`.
-/

/-- One OS-level call made by the library (POSIX branch of `uesm.h`). -/
inductive OSAction where
  | semOpen (name : String) (initialValue : Nat) : OSAction
  | semPostCall : OSAction
  | semWaitCall : OSAction
  | semTimedWaitCall (deadlineSec deadlineNsec : Nat) : OSAction
  | semCloseCall : OSAction
  | semUnlinkCall (name : String) : OSAction
  | shmOpenCall (name : String) : OSAction
  | ftruncateCall (fd : Nat) (size : Nat) : OSAction
  | closeFd (fd : Nat) : OSAction
  | mmapCall (fd : Nat) (size : Nat) : OSAction
  | munmapCall (addr : Nat) (size : Nat) : OSAction
  | shmUnlinkCall (name : String) : OSAction
  deriving DecidableEq

/-- `INFINITE` as defined for Linux in `uesm.h`: `(unsigned int)-1`. -/
def INFINITE : Nat := 4294967295

/-- Outcome the OS reports for a `sem_wait` / `sem_timedwait` call:
success (0), `ETIMEDOUT`, or some other error. -/
inductive WaitOutcome where
  | signaled : WaitOutcome
  | timedOut : WaitOutcome
  | osError : WaitOutcome
  deriving DecidableEq

/-- `create_event` (uesm.h lines 31-51, POSIX branch). Returns `nullptr`
for a null name; otherwise calls `sem_open(name, O_CREAT, 0666, initial_state ? 1 : 0)`
and returns its result (`nullptr` on `SEM_FAILED`). The oracle
`sem_open_result` is the handle the OS returns, `none` for `SEM_FAILED`. -/
def create_event (name : Option String) (initial_state : Bool)
    (sem_open_result : Option Nat) : Option Nat × List OSAction :=
  match name with
  | none => (none, [])
  | some n =>
      (sem_open_result, [OSAction.semOpen n (if initial_state then 1 else 0)])

/-- `set_event` (uesm.h lines 53-66, POSIX branch). The event handle is a
POSIX semaphore; its state is the semaphore value (count). A null handle
returns `false`. Otherwise `sem_post` is called: it increments the
semaphore value by one (releasing one waiter if any is blocked) and
returns 0, so `set_event` returns `true` and the count grows by one. -/
def set_event (event : Option Nat) : Bool × Option Nat :=
  match event with
  | none => (false, none)
  | some count => (true, some (count + 1))

/-- What one successful-or-timed-out `sem_wait`-family call does to a
POSIX semaphore value when no concurrent post arrives during the wait:
a positive count is decremented and the wait succeeds; a zero count
leaves the waiter blocked until timeout. -/
def sem_wait_step (count : Nat) : Bool × Nat :=
  if count = 0 then (false, 0) else (true, count - 1)

/-- The absolute deadline `ts` computed by `wait_for_event`
(uesm.h lines 87-96) from the current `CLOCK_REALTIME` time
`(now_sec, now_nsec)` and the finite timeout in milliseconds:
`ts.tv_sec += timeout_ms / 1000; ts.tv_nsec += (timeout_ms % 1000) * 1000000;`
followed by one conditional normalization step. -/
def wait_deadline (now_sec now_nsec timeout_ms : Nat) : Nat × Nat :=
  let s := now_sec + timeout_ms / 1000
  let n := now_nsec + (timeout_ms % 1000) * 1000000
  if n ≥ 1000000000 then (s + 1, n - 1000000000) else (s, n)

/-- `wait_for_event` (uesm.h lines 68-101, POSIX branch). A null handle
returns `false`. With `timeout_ms == INFINITE` it calls `sem_wait` and
returns `sem_wait(sem) == 0`; otherwise it computes the absolute
deadline from the current clock and returns `sem_timedwait(sem, ts) == 0`.
The oracle `os` is the outcome the OS reports for the wait call. -/
def wait_for_event (event : Option Nat) (timeout_ms : Nat)
    (now_sec now_nsec : Nat) (os : WaitOutcome) : Bool :=
  match event with
  | none => false
  | some _ =>
      if timeout_ms = INFINITE then
        match os with
        | WaitOutcome.signaled => true
        | _ => false
      else
        let _ts := wait_deadline now_sec now_nsec timeout_ms
        match os with
        | WaitOutcome.signaled => true
        | _ => false

/-- `close_event` (uesm.h lines 103-124, POSIX branch). Returns
immediately on a null handle; otherwise calls `sem_close`, then
`sem_unlink(name)` unless `name` is null. Returns the trace of OS calls. -/
def close_event (event : Option Nat) (name : Option String) : List OSAction :=
  match event with
  | none => []
  | some _ =>
      OSAction.semCloseCall ::
        (match name with
         | none => []
         | some n => [OSAction.semUnlinkCall n])

/-- `create_shared_memory` (uesm.h lines 127-160, POSIX branch). Rejects
a null name, then a zero size, before any OS call. Otherwise calls
`shm_open(name, O_CREAT | O_RDWR, 0666)` (oracle `shm_open_result`,
`none` for -1); on success calls `ftruncate(shm_fd, size)` (oracle
`ftruncate_ok`); if `ftruncate` fails it calls `close(shm_fd)` and
`shm_unlink(name)` and returns `nullptr`; otherwise returns the fd. -/
def create_shared_memory (name : Option String) (size : Nat)
    (shm_open_result : Option Nat) (ftruncate_ok : Bool) :
    Option Nat × List OSAction :=
  match name with
  | none => (none, [])
  | some n =>
      if size = 0 then (none, [])
      else
        match shm_open_result with
        | none => (none, [OSAction.shmOpenCall n])
        | some fd =>
            if ftruncate_ok then
              (some fd, [OSAction.shmOpenCall n, OSAction.ftruncateCall fd size])
            else
              (none, [OSAction.shmOpenCall n, OSAction.ftruncateCall fd size,
                      OSAction.closeFd fd, OSAction.shmUnlinkCall n])

/-- `map_shared_memory` (uesm.h lines 162-196, POSIX branch). Rejects a
null backing handle, then a zero size, before any OS call. Otherwise
calls `mmap(nullptr, size, PROT_READ | PROT_WRITE, MAP_SHARED, shm_fd, 0)`
(oracle `mmap_result`, `none` for `MAP_FAILED`); on `MAP_FAILED` it calls
`close(shm_fd)` and returns `nullptr`; on success it returns the address. -/
def map_shared_memory (shm : Option Nat) (size : Nat)
    (mmap_result : Option Nat) : Option Nat × List OSAction :=
  match shm with
  | none => (none, [])
  | some fd =>
      if size = 0 then (none, [])
      else
        match mmap_result with
        | none => (none, [OSAction.mmapCall fd size, OSAction.closeFd fd])
        | some addr => (some addr, [OSAction.mmapCall fd size])

/-- `close_shared_memory` (uesm.h lines 198-228, POSIX branch). Returns
immediately on a null backing handle; otherwise calls
`munmap(mapped, size)` if `mapped` is non-null, then `close(shm)`, then
`shm_unlink(name)` unless `name` is null. Returns the trace of OS calls. -/
def close_shared_memory (shm : Option Nat) (name : Option String)
    (mapped : Option Nat) (size : Nat) : List OSAction :=
  match shm with
  | none => []
  | some fd =>
      (match mapped with
       | none => []
       | some addr => [OSAction.munmapCall addr size]) ++
      [OSAction.closeFd fd] ++
      (match name with
       | none => []
       | some n => [OSAction.shmUnlinkCall n])

/-- Claim C1, counterexample: at backing fd 3 and size 4096, when mmap
fails, `map_shared_memory` does close the backing descriptor — the trace
contains `close(3)` — contradicting the claim that the backing handle is
left open and untouched on map failure. -/
theorem map_failure_close_cex :
    map_shared_memory (some 3) 4096 none =
      (none, [OSAction.mmapCall 3 4096, OSAction.closeFd 3]) ∧
    OSAction.closeFd 3 ∈ (map_shared_memory (some 3) 4096 none).2 := by
  decide

/-- Claim C1, amended: for every backing fd and nonzero size, when mmap
fails to establish the mapping, `map_shared_memory` closes the backing
descriptor before returning the failure sentinel — the caller no longer
owns the handle after a map failure. -/
theorem map_shared_memory_closes_on_failure (fd size : Nat) (h : size ≠ 0) :
    map_shared_memory (some fd) size none =
      (none, [OSAction.mmapCall fd size, OSAction.closeFd fd]) := by
  simp [map_shared_memory, h]

/-- Witness for `map_shared_memory_closes_on_failure` at fd 3, size 4096. -/
theorem map_shared_memory_closes_on_failure_witness :
    (4096 : Nat) ≠ 0 ∧
    map_shared_memory (some 3) 4096 none =
      (none, [OSAction.mmapCall 3 4096, OSAction.closeFd 3]) :=
  ⟨by decide, map_shared_memory_closes_on_failure 3 4096 (by decide)⟩

/-- Claim C2: for every non-null name and positive size, if `shm_open`
succeeds with descriptor fd but `ftruncate` fails, `create_shared_memory`
closes fd and unlinks the name before returning the failure sentinel,
leaving no partially-acquired OS resource alive. -/
theorem create_shared_memory_unwinds (n : String) (fd size : Nat)
    (h : 0 < size) :
    create_shared_memory (some n) size (some fd) false =
      (none, [OSAction.shmOpenCall n, OSAction.ftruncateCall fd size,
              OSAction.closeFd fd, OSAction.shmUnlinkCall n]) := by
  simp [create_shared_memory, h.ne']

/-- Witness for `create_shared_memory_unwinds` at name "x", fd 3, size 4096. -/
theorem create_shared_memory_unwinds_witness :
    (0 : Nat) < 4096 ∧
    create_shared_memory (some "x") 4096 (some 3) false =
      (none, [OSAction.shmOpenCall "x", OSAction.ftruncateCall 3 4096,
              OSAction.closeFd 3, OSAction.shmUnlinkCall "x"]) :=
  ⟨by decide, create_shared_memory_unwinds "x" 3 4096 (by decide)⟩

/-- Claim C3, counterexample: signaling an already-signaled event
(semaphore value 1) yields value 2, not value 1 — `sem_post` accumulates
the count instead of being an idempotent no-op. -/
theorem set_event_not_idempotent_cex :
    (set_event (some 1)).2 = some 2 ∧ (some 2 : Option Nat) ≠ some 1 := by
  decide

/-- Claim C3, amended: `set_event` operates the POSIX semaphore in
counting mode: every signal increments the value by one (also when the
event is already signaled), and each positive value releases one
subsequent wait — so multiple signals release multiple subsequent waits. -/
theorem set_event_counting_semantics (count : Nat) :
    set_event (some count) = (true, some (count + 1)) ∧
    sem_wait_step (count + 1) = (true, count) := by
  refine ⟨rfl, ?_⟩
  simp [sem_wait_step]

/-- Claim C4, counterexample: on a valid handle with a finite timeout,
`wait_for_event` returns `false` both when the OS reports a clean timeout
and when it reports a distinct OS-level error — the boolean return cannot
distinguish the three outcomes the claim requires. -/
theorem wait_for_event_conflates_cex :
    wait_for_event (some 1) 100 0 0 WaitOutcome.timedOut = false ∧
    wait_for_event (some 1) 100 0 0 WaitOutcome.osError = false ∧
    WaitOutcome.timedOut ≠ WaitOutcome.osError := by
  decide

/-- Claim C4, amended: `wait_for_event` returns a two-state boolean, not
a tri-state result: for every valid handle, timeout and clock reading, it
returns `true` exactly when the OS reports the wait as signaled; both
timeout and OS-level error are collapsed to `false`. -/
theorem wait_for_event_boolean_result (fd timeout_ms now_sec now_nsec : Nat)
    (os : WaitOutcome) :
    (wait_for_event (some fd) timeout_ms now_sec now_nsec os = true ↔
      os = WaitOutcome.signaled) := by
  cases os <;> simp [wait_for_event]

/-- Claim C5, counterexample: with the empty-string name, `create_event`
does perform an OS call (`sem_open` on "") — the empty string is not
rejected before touching the OS. -/
theorem create_event_empty_name_cex :
    (create_event (some "") false none).2 = [OSAction.semOpen "" 0] ∧
    (create_event (some "") false none).2 ≠ ([] : List OSAction) := by
  decide

/-- Claim C5, amended: `create_event` rejects only a null name before any
OS call (returning the null sentinel with an empty trace); an
empty-string name is not pre-checked and is passed to `sem_open`, whose
result decides success or failure. -/
theorem create_event_null_check_only (b : Bool) (r : Option Nat) :
    create_event none b r = (none, []) ∧
    (create_event (some "") b r).2 =
      [OSAction.semOpen "" (if b then 1 else 0)] :=
  ⟨rfl, rfl⟩

/-- Claim C6: `create_shared_memory` with a null name or zero size, and
`map_shared_memory` with a null backing handle or zero size, return the
failure sentinel with an empty OS-call trace — rejection happens before
any OS call. -/
theorem reject_invalid_before_os (name : Option String) (size1 size2 : Nat)
    (shm_open_result : Option Nat) (ftruncate_ok : Bool)
    (shm mmap_result : Option Nat)
    (h1 : name = none ∨ size1 = 0) (h2 : shm = none ∨ size2 = 0) :
    create_shared_memory name size1 shm_open_result ftruncate_ok = (none, []) ∧
    map_shared_memory shm size2 mmap_result = (none, []) := by
  constructor
  · rcases h1 with h | h
    · subst h; rfl
    · subst h; cases name <;> rfl
  · rcases h2 with h | h
    · subst h; rfl
    · subst h; cases shm <;> rfl

/-- Witness for `reject_invalid_before_os`: null name for create, zero
size for map. -/
theorem reject_invalid_before_os_witness :
    create_shared_memory none 8 (some 3) true = (none, []) ∧
    map_shared_memory (some 3) 0 (some 7) = (none, []) :=
  reject_invalid_before_os none 8 0 (some 3) true (some 3) (some 7)
    (Or.inl rfl) (Or.inr rfl)

/-- Claim C7: for every non-null backing fd, `close_shared_memory` emits
its OS calls in order: the munmap of a non-null mapping comes first, then
the close of the backing descriptor, and the unlink of the name comes
last and occurs exactly when a name was provided — the backing descriptor
is never closed before a supplied mapping is unmapped. -/
theorem close_shared_memory_order (fd addr size : Nat) (name : Option String) :
    (close_shared_memory (some fd) name (some addr) size =
      [OSAction.munmapCall addr size, OSAction.closeFd fd] ++
        (match name with
         | none => ([] : List OSAction)
         | some n => [OSAction.shmUnlinkCall n])) ∧
    (close_shared_memory (some fd) name none size =
      [OSAction.closeFd fd] ++
        (match name with
         | none => ([] : List OSAction)
         | some n => [OSAction.shmUnlinkCall n])) ∧
    (∀ n : String, OSAction.shmUnlinkCall n ∈
        close_shared_memory (some fd) name (some addr) size ↔ name = some n) := by
  refine ⟨?_, ?_, ?_⟩
  · cases name <;> rfl
  · cases name <;> rfl
  · intro n
    cases name with
    | none => simp [close_shared_memory]
    | some m => simp [close_shared_memory, eq_comm]

/-- Claim C8: destroy on a null handle is a no-op, never an error:
`close_event` with a null event and `close_shared_memory` with a null
backing handle return immediately with an empty OS-call trace, for every
name, mapping and size argument. -/
theorem null_handle_destroy_noop (name : Option String) (mapped : Option Nat)
    (size : Nat) :
    close_event none name = [] ∧
    close_shared_memory none name mapped size = [] :=
  ⟨rfl, rfl⟩

/-- Claim C9: for every finite timeout and starting clock value with
nanosecond field below one second, the deadline computed by
`wait_for_event` equals the start plus exactly `timeout_ms` milliseconds,
its nanosecond field is again normalized below one second, and the
unnormalized nanosecond sum stays below two seconds, so the single
conditional subtraction suffices. -/
theorem wait_deadline_exact (now_sec now_nsec timeout_ms : Nat)
    (hn : now_nsec < 1000000000) (hfin : timeout_ms ≠ INFINITE) :
    (wait_deadline now_sec now_nsec timeout_ms).2 < 1000000000 ∧
    (wait_deadline now_sec now_nsec timeout_ms).1 * 1000000000 +
        (wait_deadline now_sec now_nsec timeout_ms).2 =
      (now_sec * 1000000000 + now_nsec) + timeout_ms * 1000000 ∧
    now_nsec + (timeout_ms % 1000) * 1000000 < 2000000000 := by
  have hmod : timeout_ms % 1000 < 1000 := Nat.mod_lt _ (by omega)
  have hdiv := Nat.div_add_mod timeout_ms 1000
  unfold wait_deadline
  dsimp only
  split <;> refine ⟨?_, ?_, ?_⟩ <;> omega

/-- Witness for `wait_deadline_exact` at clock (10 s, 999999999 ns) and
timeout 1500 ms. -/
theorem wait_deadline_exact_witness :
    (999999999 : Nat) < 1000000000 ∧ (1500 : Nat) ≠ INFINITE ∧
    ((wait_deadline 10 999999999 1500).2 < 1000000000 ∧
     (wait_deadline 10 999999999 1500).1 * 1000000000 +
         (wait_deadline 10 999999999 1500).2 =
       (10 * 1000000000 + 999999999) + 1500 * 1000000 ∧
     999999999 + (1500 % 1000) * 1000000 < 2000000000) :=
  ⟨by decide, by decide, wait_deadline_exact 10 999999999 1500 (by decide) (by decide)⟩

/-- Claim C10: when the backing handle passed to `close_shared_memory` is
null, the early return performs no OS call at all, so in particular the
name is never unlinked even when a non-null name was provided. -/
theorem close_shared_memory_null_skips_unlink (name : Option String)
    (mapped : Option Nat) (size : Nat) (n : String) :
    close_shared_memory none name mapped size = [] ∧
    OSAction.shmUnlinkCall n ∉ close_shared_memory none (some n) mapped size :=
  ⟨rfl, by simp [close_shared_memory]⟩
